import Mathlib

/-!
Verification of the `Database` data-access layer of the olga_bot repository
(`sql.py`) against its specification, via a shallow embedding: the database
state is a record of tables (lists of rows plus serial-id counters), each
method of `Database` is a Lean function on that state translated from the SQL
statement it issues, and Python-level parsing (`int()`, `float()`,
`datetime.strptime`, `str.split`) is embedded as executable Option-valued
parsers.  SQL `INT`/`BIGINT` columns are modelled as unbounded integers
(no claim exercises overflow), `REAL` columns as rationals, and `TIMESTAMP`
columns as a calendar record.
-/

namespace OlgaBot

/-- A `TIMESTAMP` value, as produced by `datetime.strptime` with format
`%Y-%m-%dT%H:%M:%S` (sql.py lines 105-106). -/
structure Timestamp where
  year : Nat
  month : Nat
  day : Nat
  hour : Nat
  minute : Nat
  second : Nat
deriving DecidableEq

/-- A row of `users` (sql.py lines 52-56): serial `id`, `user_id BIGINT UNIQUE`,
nullable `username`, `full_name`, nullable `b24_id`, `im_link_b24`, `lead_id`. -/
structure UsersRow where
  id : Nat
  user_id : Int
  username : Option String
  full_name : Option String
  b24_id : Option Int
  im_link_b24 : Option String
  lead_id : Option Int
deriving DecidableEq

/-- A row of `deals` (sql.py lines 58-61): serial `id`, `user_id`, `deal_id`,
`product_id`, `opportunity REAL`, `paid BOOLEAN DEFAULT FALSE`, `create_time`. -/
structure DealsRow where
  id : Nat
  user_id : Int
  deal_id : Int
  product_id : Int
  opportunity : Rat
  paid : Bool
  create_time : Timestamp
deriving DecidableEq

/-- A row of `products` (sql.py lines 77-80): `id INT PRIMARY KEY`, nullable
`name`, `active_from`, `active_to`, `price REAL`, nullable `currency_id`,
nullable `description`. -/
structure ProductsRow where
  id : Int
  name : Option String
  active_from : Timestamp
  active_to : Timestamp
  price : Rat
  currency_id : Option String
  description : Option String
deriving DecidableEq

/-- A row of `buttons_stat` (sql.py lines 72-75): serial `id`, `user_id`,
`button_name`, `count INT`, with `UNIQUE (user_id, button_name)`. -/
structure ButtonsStatRow where
  id : Nat
  user_id : Int
  button_name : String
  count : Int
deriving DecidableEq

/-- A row of `payments` (sql.py lines 82-85). -/
structure PaymentsRow where
  id : Nat
  user_id : Int
  currency : String
  total_amount : Int
  product_id : Int
  deal_id : Int
  telegram_payment_charge_id : String
  provider_payment_charge_id : String
deriving DecidableEq

/-- The state of the relational store managed by `Database`: one list per
table (rows in insertion order) plus the next value of each `SERIAL` key. -/
structure DBState where
  users : List UsersRow
  deals : List DealsRow
  products : List ProductsRow
  buttons_stat : List ButtonsStatRow
  payments : List PaymentsRow
  users_seq : Nat
  deals_seq : Nat
  buttons_seq : Nat
  payments_seq : Nat
deriving DecidableEq

/-- Embeds `is_user_exist` (sql.py lines 155-157): `SELECT * FROM users WHERE
user_id = $1` wrapped in Python `bool(...)`, true iff the result list is
non-empty. -/
def is_user_exist (db : DBState) (user_id : Int) : Bool :=
  !((db.users.filter (fun r => r.user_id == user_id)).isEmpty)

/-- Python truthiness of a nullable `INT` column value: `None` and `0` are
falsy, every other integer truthy. -/
def pyTruthyIntOpt : Option Int → Bool
  | none => false
  | some n => n != 0

/-- Embeds `is_b24_contact_exist` (sql.py lines 159-162): selects `b24_id` for the
user and evaluates the Python truthiness of the `b24_id` field of the first
result row.  The `result[0]` index
raises `IndexError` when the user has no row, which the embedding renders as
`none`; otherwise the call returns `some` of the truthiness of `b24_id`. -/
def is_b24_contact_exist (db : DBState) (user_id : Int) : Option Bool :=
  match db.users.filter (fun r => r.user_id == user_id) with
  | [] => none
  | r :: _ => some (pyTruthyIntOpt r.b24_id)

/-- Embeds `add_new_user` (sql.py lines 176-178): `INSERT INTO users (user_id,
username, full_name) VALUES ($1, $2, $3)`.  The `uk_users_user_id` unique
constraint makes the insert fail when a row with this `user_id` exists. -/
def add_new_user (db : DBState) (user_id : Int) (username : Option String)
    (full_name : String) : Except String DBState :=
  if db.users.any (fun r => r.user_id == user_id) then
    Except.error "duplicate key value violates unique constraint uk_users_user_id"
  else
    let row : UsersRow :=
      { id := db.users_seq, user_id := user_id, username := username,
        full_name := some full_name, b24_id := none, im_link_b24 := none,
        lead_id := none }
    Except.ok { db with users := db.users ++ [row],
                        users_seq := db.users_seq + 1 }

/-- Embeds `add_new_deal` (sql.py lines 63-66): inserts a deal row; `paid` takes its
schema default `FALSE` and `create_time` the caller-side `datetime.now()`,
passed here as an explicit argument. -/
def add_new_deal (db : DBState) (user_id deal_id product_id : Int)
    (opportunity : Rat) (time_now : Timestamp) : DBState :=
  let row : DealsRow :=
    { id := db.deals_seq, user_id := user_id, deal_id := deal_id,
      product_id := product_id, opportunity := opportunity, paid := false,
      create_time := time_now }
  { db with deals := db.deals ++ [row], deals_seq := db.deals_seq + 1 }

/-- Embeds `get_user_deal_by_product_id` (sql.py lines 168-170): `SELECT * FROM deals
WHERE user_id = $1 AND product_id = $2 AND paid = FALSE`. -/
def get_user_deal_by_product_id (db : DBState) (user_id product_id : Int) :
    List DealsRow :=
  db.deals.filter (fun r =>
    r.user_id == user_id && r.product_id == product_id && r.paid == false)

/-- Embeds `set_paid_deal` (sql.py lines 172-174): `UPDATE deals SET paid = True
WHERE deal_id = $1`.  A SQL `UPDATE` matching no rows is a successful no-op,
so the embedding is a total function. -/
def set_paid_deal (db : DBState) (deal_id : Int) : DBState :=
  { db with
    deals := db.deals.map (fun r =>
      if r.deal_id == deal_id then { r with paid := true } else r) }

/-- Embeds `add_button_count` (sql.py lines 124-128): one upsert statement,
`INSERT ... VALUES ($1, $2, 1) ON CONFLICT (user_id, button_name) DO UPDATE
SET count = buttons_stat.count + 1 WHERE buttons_stat.user_id = $1 AND
buttons_stat.button_name = $2`.  On conflict the `WHERE` clause always holds
for the conflicting row, so its count is incremented; otherwise a fresh row
with count 1 is appended. -/
def add_button_count (db : DBState) (user_id : Int) (button_name : String) :
    DBState :=
  if db.buttons_stat.any (fun r =>
      r.user_id == user_id && r.button_name == button_name) then
    { db with buttons_stat := db.buttons_stat.map (fun r =>
        if r.user_id == user_id && r.button_name == button_name then
          { r with count := r.count + 1 }
        else r) }
  else
    let row : ButtonsStatRow :=
      { id := db.buttons_seq, user_id := user_id, button_name := button_name,
        count := 1 }
    { db with buttons_stat := db.buttons_stat ++ [row],
              buttons_seq := db.buttons_seq + 1 }

/-- Value of a digit string, most significant first. -/
def digitsToNat (cs : List Char) : Nat :=
  cs.foldl (fun n c => n * 10 + (c.toNat - 48)) 0

/-- Strip leading and trailing whitespace from a character list, as Python
`str.strip()` does before numeric conversion. -/
def trimChars (cs : List Char) : List Char :=
  ((cs.dropWhile Char.isWhitespace).reverse.dropWhile Char.isWhitespace).reverse

/-- Split a character list at every occurrence of the separator, keeping
empty pieces, as Python `str.split(sep)` with an explicit one-character
separator: the result is never empty, and has length 1 exactly when the
separator does not occur. -/
def splitChar (sep : Char) : List Char → List (List Char)
  | [] => [[]]
  | c :: cs =>
    if c == sep then [] :: splitChar sep cs
    else
      match splitChar sep cs with
      | [] => [[c]]
      | h :: t => (c :: h) :: t

/-- Python `s.split(sep)` for the one-character separators used in sql.py
(`':'` and `'+'`). -/
def pySplit (s : String) (sep : Char) : List String :=
  (splitChar sep s.toList).map (fun cs => String.mk cs)

/-- Python `s.split(sep)[0]`: the prefix before the first occurrence of the
separator (the whole string when the separator is absent); `split` with an
explicit separator never returns an empty list, so index 0 never fails. -/
def pySplitHead (s : String) (sep : Char) : String :=
  (pySplit s sep).headD ""

/-- Python `int(s)` on a string: optional surrounding whitespace, an optional
sign, then a non-empty run of digits; anything else raises `ValueError`,
rendered as `none`. -/
def pyInt (s : String) : Option Int :=
  let cs := trimChars s.toList
  let sgnRest : Int × List Char :=
    match cs with
    | '+' :: t => (1, t)
    | '-' :: t => (-1, t)
    | t => (1, t)
  if sgnRest.2 ≠ [] ∧ sgnRest.2.all Char.isDigit then
    some (sgnRest.1 * (digitsToNat sgnRest.2 : Int))
  else none

/-- Python `float(s)` on a decimal literal: optional surrounding whitespace,
an optional sign, then digits with an optional fractional point; at least one
digit overall.  The exotic forms (`inf`, `nan`, exponents) never occur in the
catalog prices this models, and an unconvertible string raises `ValueError`,
rendered as `none`. -/
def pyFloat (s : String) : Option Rat :=
  let cs := trimChars s.toList
  let sgnRest : Int × List Char :=
    match cs with
    | '+' :: t => (1, t)
    | '-' :: t => (-1, t)
    | t => (1, t)
  let intPart := sgnRest.2.takeWhile Char.isDigit
  let rest := sgnRest.2.dropWhile Char.isDigit
  match rest with
  | [] =>
    if intPart = [] then none
    else some (mkRat (sgnRest.1 * (digitsToNat intPart : Int)) 1)
  | '.' :: frac =>
    if frac.all Char.isDigit ∧ (intPart ≠ [] ∨ frac ≠ []) then
      some (mkRat (sgnRest.1 *
        ((digitsToNat intPart * 10 ^ frac.length + digitsToNat frac : Nat) : Int))
        (10 ^ frac.length))
    else none
  | _ => none

/-- Python list indexing `l[i]`, raising `IndexError` out of range. -/
def pyIndex {α : Type} (l : List α) (i : Nat) : Except String α :=
  match l.get? i with
  | some a => Except.ok a
  | none => Except.error "IndexError: list index out of range"

/-- True iff `y` is a leap year of the proleptic Gregorian calendar used by
Python datetime. -/
def isLeapYear (y : Nat) : Bool :=
  (y % 4 == 0 && y % 100 != 0) || y % 400 == 0

/-- Number of days of month `m` of year `y`. -/
def daysInMonth (y m : Nat) : Nat :=
  if m == 2 then (if isLeapYear y then 29 else 28)
  else if m == 4 || m == 6 || m == 9 || m == 11 then 30
  else 31

/-- A run of 1 to `maxLen` digits, as matched by the numeric directives of
`strptime`. -/
def parseDigitRun (cs : List Char) (maxLen : Nat) : Option Nat :=
  if cs ≠ [] ∧ cs.length ≤ maxLen ∧ cs.all Char.isDigit then
    some (digitsToNat cs)
  else none

/-- Python `datetime.strptime` with format `%Y-%m-%dT%H:%M:%S` (sql.py lines
105-106): `%Y` matches exactly four digits, the other directives one or two;
the whole string must be consumed, and the resulting calendar components must
form a valid `datetime` (year 1-9999, valid month/day, time below 24:60:60),
else `ValueError` is raised, rendered as `none`. -/
def pyStrptime (s : String) : Option Timestamp :=
  match splitChar 'T' s.toList with
  | [datePart, timePart] =>
    match splitChar '-' datePart, splitChar ':' timePart with
    | [ys, mos, das], [hs, mis, ss] =>
      match parseDigitRun ys 4, parseDigitRun mos 2, parseDigitRun das 2,
            parseDigitRun hs 2, parseDigitRun mis 2, parseDigitRun ss 2 with
      | some y, some mo, some da, some h, some mi, some sec =>
        if ys.length = 4 ∧ 1 ≤ y ∧ y ≤ 9999 ∧ 1 ≤ mo ∧ mo ≤ 12 ∧ 1 ≤ da ∧
            da ≤ daysInMonth y mo ∧ h ≤ 23 ∧ mi ≤ 59 ∧ sec ≤ 59 then
          some { year := y, month := mo, day := da, hour := h, minute := mi,
                 second := sec }
        else none
      | _, _, _, _, _, _ => none
    | _, _ => none
  | _ => none

/-- The fields of an `aiogram` `SuccessfulPayment` that `add_payment`
reads. -/
structure SuccessfulPayment where
  currency : String
  total_amount : Int
  invoice_payload : String
  telegram_payment_charge_id : String
  provider_payment_charge_id : String
deriving DecidableEq

/-- Embeds `add_payment` (sql.py lines 87-97): splits the invoice payload at
the colon and converts index 0, then index 1, with `int(...)` — in that order, so a
payload without the delimiter fails at the `[1]` index and a non-numeric part
fails inside `int` — and only then issues the single `INSERT INTO payments`
statement.  Any parse failure therefore leaves the state untouched. -/
def add_payment (db : DBState) (user_id : Int)
    (payment_data : SuccessfulPayment) : Except String DBState :=
  let currency := payment_data.currency
  let total_amount := payment_data.total_amount
  match pyIndex (pySplit payment_data.invoice_payload ':') 0 with
  | Except.error e => Except.error e
  | Except.ok s0 =>
    match pyInt s0 with
    | none => Except.error "ValueError: invalid literal for int with base 10"
    | some product_id =>
      match pyIndex (pySplit payment_data.invoice_payload ':') 1 with
      | Except.error e => Except.error e
      | Except.ok s1 =>
        match pyInt s1 with
        | none =>
          Except.error "ValueError: invalid literal for int with base 10"
        | some deal_id =>
          let row : PaymentsRow :=
            { id := db.payments_seq, user_id := user_id,
              currency := currency, total_amount := total_amount,
              product_id := product_id, deal_id := deal_id,
              telegram_payment_charge_id :=
                payment_data.telegram_payment_charge_id,
              provider_payment_charge_id :=
                payment_data.provider_payment_charge_id }
          Except.ok { db with payments := db.payments ++ [row],
                              payments_seq := db.payments_seq + 1 }

/-- A product dictionary as consumed by `update_table_products` (sql.py lines
99-114): the keys it reads via `.get(...)`, each possibly absent (`None`).
`PRICE` arrives as the string Bitrix returns, converted with `float(...)`. -/
structure ProductDict where
  id : Option Int
  name : Option String
  dateActiveFrom : Option String
  dateActiveTo : Option String
  PRICE : Option String
  CURRENCY_ID : Option String
  detailText : Option String
deriving DecidableEq

/-- The seven column values of one `INSERT INTO products` statement, after
the Python-side conversions of sql.py lines 103-109. -/
structure ProductInsertValues where
  id : Option Int
  name : Option String
  active_from : Timestamp
  active_to : Timestamp
  price : Rat
  currency_id : Option String
  description : Option String
deriving DecidableEq

/-- The Python-side preparation of one product record (sql.py lines 103-109):
the `dateActiveFrom` value is split at the plus sign and its prefix parsed
with `strptime` — `AttributeError` when the key is absent, `ValueError` when the prefix does
not match the format — likewise for `dateActiveTo`, and
`float(...)` of the `PRICE` value — `TypeError` on `None`, `ValueError` on a
non-numeric string.  `id`, `name`, `CURRENCY_ID` and `detailText` are read
with plain `.get` and cannot fail here. -/
def processProduct (p : ProductDict) : Except String ProductInsertValues :=
  match p.dateActiveFrom with
  | none => Except.error "AttributeError: NoneType object has no attribute split"
  | some afRaw =>
    match pyStrptime (pySplitHead afRaw '+') with
    | none => Except.error "ValueError: time data does not match format"
    | some active_from =>
      match p.dateActiveTo with
      | none =>
        Except.error "AttributeError: NoneType object has no attribute split"
      | some atRaw =>
        match pyStrptime (pySplitHead atRaw '+') with
        | none => Except.error "ValueError: time data does not match format"
        | some active_to =>
          match p.PRICE with
          | none => Except.error "TypeError: float() argument must be a string"
          | some prRaw =>
            match pyFloat prRaw with
            | none =>
              Except.error "ValueError: could not convert string to float"
            | some price =>
              let v : ProductInsertValues :=
                { id := p.id, name := p.name, active_from := active_from,
                  active_to := active_to, price := price,
                  currency_id := p.CURRENCY_ID, description := p.detailText }
              Except.ok v

/-- One `INSERT INTO products` statement (sql.py lines 110-113): `id` is the
`INT PRIMARY KEY`, so inserting `NULL` or a duplicate id fails. -/
def insertProduct (db : DBState) (v : ProductInsertValues) :
    Except String DBState :=
  match v.id with
  | none => Except.error "null value in column id violates not-null constraint"
  | some i =>
    if db.products.any (fun r => r.id == i) then
      Except.error "duplicate key value violates unique constraint products_pkey"
    else
      Except.ok { db with products := db.products ++
        [⟨i, v.name, v.active_from, v.active_to, v.price, v.currency_id,
          v.description⟩] }

/-- The per-product loop of `update_table_products` (sql.py lines 102-113).
Each insert is its own `update` call (its own transaction), so an exception
while processing one record propagates and leaves the rows inserted so far in
place: the result pairs the state reached with the first error, if any. -/
def updateLoop : DBState → List ProductDict → DBState × Option String
  | db, [] => (db, none)
  | db, p :: rest =>
    match processProduct p with
    | Except.error e => (db, some e)
    | Except.ok v =>
      match insertProduct db v with
      | Except.error e => (db, some e)
      | Except.ok db1 => updateLoop db1 rest

/-- Embeds `update_table_products` (sql.py lines 99-114): `TRUNCATE TABLE products`
(one transaction) followed by the per-product insert loop. -/
def update_table_products (db : DBState) (products_list : List ProductDict) :
    DBState × Option String :=
  updateLoop { db with products := [] } products_list

/-- Embeds `get_products` (sql.py lines 116-118): `SELECT * FROM products`. -/
def get_products (db : DBState) : List ProductsRow :=
  db.products

/-- Embeds `get_product_by_id` (sql.py lines 120-122): `SELECT * FROM products
WHERE id = $1`. -/
def get_product_by_id (db : DBState) (product_id : Int) : List ProductsRow :=
  db.products.filter (fun r => r.id == product_id)

/-- The keyword arguments `connect` passes to `asyncpg.create_pool` (sql.py
lines 28-35): note that the `timeout` of the constructor is forwarded as
`max_inactive_connection_lifetime`. -/
structure PoolConfig where
  dsn : String
  min_size : Nat
  max_size : Nat
  max_queries : Nat
  max_inactive_connection_lifetime : Nat
deriving DecidableEq

/-- The `Database` handle (sql.py lines 20-26): the constructor stores the
dsn and the four pool bounds and leaves `self.pool = None`. -/
structure Database where
  dsn : String
  pool : Option PoolConfig
  min_size : Nat
  max_size : Nat
  max_queries : Nat
  timeout : Nat
deriving DecidableEq

/-- The argument record `connect` builds for `asyncpg.create_pool` (sql.py
lines 29-35). -/
def Database.createPoolArgs (db : Database) : PoolConfig :=
  { dsn := db.dsn, min_size := db.min_size, max_size := db.max_size,
    max_queries := db.max_queries,
    max_inactive_connection_lifetime := db.timeout }

/-- Embeds `connect` (sql.py lines 28-35): `self.pool = await asyncpg.create_pool(...)`. -/
def Database.connect (db : Database) : Database :=
  { db with pool := some db.createPoolArgs }

/-- The `timeout` argument of the `self.pool.acquire()` calls in `select`
(line 40) and `update` (line 48): both call `acquire()` with no argument, and
the asyncpg `Pool.acquire` method defaults to `timeout=None`, so no acquisition bound
is ever passed. -/
def Database.acquireTimeoutArg (_db : Database) : Option Nat :=
  none

/-- Embeds `select` (sql.py lines 37-43): the lazy-connect guard (`if self.pool is
None: await self.connect()`) followed by acquire / transaction / fetch.  The
per-statement fetch against the store state is abstracted as the `fetch`
argument; the result pairs the handle after the guard with the fetched
rows. -/
def Database.select {α : Type} (db : Database) (fetch : DBState → α)
    (s : DBState) : Database × α :=
  let db1 := if db.pool.isNone then db.connect else db
  (db1, fetch s)

/-- Embeds `update` (sql.py lines 45-50): the same lazy-connect guard followed by
acquire / transaction / execute, with the effect of the statement on the store
state abstracted as the `stmt` argument. -/
def Database.update (db : Database) (stmt : DBState → DBState) (s : DBState) :
    Database × DBState :=
  let db1 := if db.pool.isNone then db.connect else db
  (db1, stmt s)

/-! Concrete states and records used to instantiate the theorems below. -/

/-- An empty store, as after the six `CREATE TABLE` statements. -/
def emptyDB : DBState := ⟨[], [], [], [], [], 1, 1, 1, 1⟩

def tsJan5 : Timestamp := ⟨2024, 1, 5, 10, 0, 0⟩

/-- A single unpaid deal of user 42 for product 7. -/
def dealRow900 : DealsRow := ⟨1, 42, 900, 7, 150, false, tsJan5⟩

def dbWithDeal : DBState := ⟨[], [dealRow900], [], [], [], 1, 2, 1, 1⟩

def userRow42 : UsersRow := ⟨1, 42, some "alice", some "Alice A", none, none, none⟩

def dbWithUser : DBState := ⟨[userRow42], [], [], [], [], 2, 1, 1, 1⟩

/-- A freshly constructed handle: `Database()` with the default bounds of
sql.py line 20, `pool` still `None`. -/
def dbHandle : Database := ⟨"postgres://cfg", none, 10, 500, 500, 30⟩

def pdOk : SuccessfulPayment := ⟨"PLN", 15000, "7:900", "tgch", "prch"⟩

def pdNoDelim : SuccessfulPayment := ⟨"PLN", 15000, "7900", "tgch", "prch"⟩

def prodA : ProductDict :=
  ⟨some 7, some "Course A", some "2024-01-05T10:00:00+02:00",
   some "2024-02-05T10:00:00+02:00", some "150.00", some "PLN", some "descA"⟩

def prodB : ProductDict :=
  ⟨some 8, some "Course B", some "2024-03-01T09:00:00+02:00",
   some "2024-04-01T09:00:00+02:00", some "99.90", some "PLN", some "descB"⟩

/-! The claims. -/

/-- C9: for all valid `(user_id, username, full_name)`, after
`add_new_user(user_id, username, full_name)` commits, `is_user_exist(user_id)`
returns true; before any such insert for that `user_id` (no `users` row
carries it), `is_user_exist(user_id)` returns false. -/
theorem add_new_user_then_is_user_exist (db : DBState) (u : Int)
    (un : Option String) (fn : String) :
    (db.users.filter (fun r => r.user_id == u) = [] →
      is_user_exist db u = false) ∧
    (∀ db', add_new_user db u un fn = Except.ok db' →
      is_user_exist db' u = true) := by
  constructor
  · intro h
    simp [is_user_exist, h]
  · intro db' h
    unfold add_new_user at h
    split at h
    · exact absurd h (by simp)
    · injection h with h
      subst h
      simp [is_user_exist, List.filter_append]

theorem add_new_user_then_is_user_exist_witness :
    is_user_exist emptyDB 42 = false ∧ is_user_exist dbWithUser 42 = true :=
  ⟨(add_new_user_then_is_user_exist emptyDB 42 (some "alice") "Alice A").1 rfl,
   (add_new_user_then_is_user_exist emptyDB 42 (some "alice") "Alice A").2
     dbWithUser rfl⟩

/-- C10: `is_b24_contact_exist` requires an existing `users` row: on a state
with no row for the given `user_id` it raises `IndexError` (modelled `none`)
rather than returning false, while `is_user_exist` returns false there. -/
theorem is_b24_contact_exist_requires_user_row (db : DBState) (u : Int)
    (h : db.users.filter (fun r => r.user_id == u) = []) :
    is_b24_contact_exist db u = none ∧ is_user_exist db u = false := by
  refine ⟨?_, ?_⟩ <;> simp [is_b24_contact_exist, is_user_exist, h]

theorem is_b24_contact_exist_requires_user_row_witness :
    is_b24_contact_exist emptyDB 42 = none ∧ is_user_exist emptyDB 42 = false :=
  is_b24_contact_exist_requires_user_row emptyDB 42 rfl

/-- C4: `set_paid_deal` is idempotent — applying it twice equals applying it
once — the rows carrying the given `deal_id` end with `paid = true`, and the
call adds no `deals` row; it is a total function, so it cannot error, also
when no row matches. -/
theorem set_paid_deal_idempotent (db : DBState) (d : Int) :
    set_paid_deal (set_paid_deal db d) d = set_paid_deal db d ∧
    (∀ r ∈ (set_paid_deal db d).deals, r.deal_id = d → r.paid = true) ∧
    (set_paid_deal db d).deals.length = db.deals.length := by
  refine ⟨?_, ?_, by simp [set_paid_deal]⟩
  · simp only [set_paid_deal, List.map_map]
    congr 1
    apply List.map_congr_left
    intro r _
    by_cases h : (r.deal_id == d) <;> simp [Function.comp, h]
  · intro r hr hd
    simp only [set_paid_deal, List.mem_map] at hr
    obtain ⟨a, _, ha⟩ := hr
    by_cases h : (a.deal_id == d)
    · simp only [h, if_pos] at ha
      subst ha
      rfl
    · simp only [h] at ha
      rw [if_neg (by simp [h])] at ha
      subst ha
      exact absurd hd (by simpa using h)

theorem set_paid_deal_idempotent_witness :
    set_paid_deal (set_paid_deal dbWithDeal 900) 900 = set_paid_deal dbWithDeal 900 ∧
    (set_paid_deal dbWithDeal 900).deals.length = dbWithDeal.deals.length ∧
    ({ dealRow900 with paid := true } : DealsRow).paid = true :=
  ⟨(set_paid_deal_idempotent dbWithDeal 900).1,
   (set_paid_deal_idempotent dbWithDeal 900).2.2,
   (set_paid_deal_idempotent dbWithDeal 900).2.1 { dealRow900 with paid := true }
     (by decide) (by decide)⟩

/-- C3: every row `get_user_deal_by_product_id` returns has `paid = false`,
and after `set_paid_deal` on the `deal_id` of such a row, a repeat of the same
query no longer contains that deal. -/
theorem get_user_deal_unpaid_and_settles (db : DBState) (u p : Int) :
    (∀ r ∈ get_user_deal_by_product_id db u p, r.paid = false) ∧
    (∀ r ∈ get_user_deal_by_product_id db u p,
      ∀ r' ∈ get_user_deal_by_product_id (set_paid_deal db r.deal_id) u p,
        r'.deal_id ≠ r.deal_id) := by
  have hmem : ∀ s : DBState, ∀ r ∈ get_user_deal_by_product_id s u p,
      r.paid = false := by
    intro s r hr
    simp only [get_user_deal_by_product_id, List.mem_filter] at hr
    have := hr.2
    simp only [Bool.and_eq_true, beq_iff_eq] at this
    exact this.2
  refine ⟨hmem db, ?_⟩
  intro r hr r' hr' heq
  have hpaid := hmem (set_paid_deal db r.deal_id) r' hr'
  simp only [get_user_deal_by_product_id, List.mem_filter, set_paid_deal,
    List.mem_map] at hr'
  obtain ⟨⟨a, _, ha⟩, _⟩ := hr'
  by_cases h : (a.deal_id == r.deal_id)
  · rw [if_pos h] at ha
    subst ha
    exact absurd hpaid (by simp)
  · rw [if_neg (by simpa using h)] at ha
    subst ha
    exact absurd heq (by simpa using h)

theorem get_user_deal_unpaid_and_settles_witness :
    dealRow900 ∈ get_user_deal_by_product_id dbWithDeal 42 7 ∧
    dealRow900.paid = false ∧
    get_user_deal_by_product_id (set_paid_deal dbWithDeal dealRow900.deal_id) 42 7 = [] :=
  ⟨by decide,
   (get_user_deal_unpaid_and_settles dbWithDeal 42 7).1 dealRow900 (by decide),
   by decide⟩

/-- C8: `set_paid_deal` changes at most the `paid` field — for every `deals`
row position the other six fields are unchanged, a row whose `deal_id` differs
from the argument is entirely unchanged, and no other table is touched. -/
theorem set_paid_deal_frame (db : DBState) (d : Int) (i : Nat)
    (h : i < (set_paid_deal db d).deals.length) (h' : i < db.deals.length) :
    (((set_paid_deal db d).deals.get ⟨i, h⟩).id = (db.deals.get ⟨i, h'⟩).id ∧
     ((set_paid_deal db d).deals.get ⟨i, h⟩).user_id = (db.deals.get ⟨i, h'⟩).user_id ∧
     ((set_paid_deal db d).deals.get ⟨i, h⟩).deal_id = (db.deals.get ⟨i, h'⟩).deal_id ∧
     ((set_paid_deal db d).deals.get ⟨i, h⟩).product_id = (db.deals.get ⟨i, h'⟩).product_id ∧
     ((set_paid_deal db d).deals.get ⟨i, h⟩).opportunity = (db.deals.get ⟨i, h'⟩).opportunity ∧
     ((set_paid_deal db d).deals.get ⟨i, h⟩).create_time = (db.deals.get ⟨i, h'⟩).create_time) ∧
    ((db.deals.get ⟨i, h'⟩).deal_id ≠ d →
      (set_paid_deal db d).deals.get ⟨i, h⟩ = db.deals.get ⟨i, h'⟩) ∧
    (set_paid_deal db d).users = db.users ∧
    (set_paid_deal db d).products = db.products ∧
    (set_paid_deal db d).buttons_stat = db.buttons_stat ∧
    (set_paid_deal db d).payments = db.payments := by
  have hget : (set_paid_deal db d).deals.get ⟨i, h⟩ =
      if (db.deals.get ⟨i, h'⟩).deal_id = d then
        { db.deals.get ⟨i, h'⟩ with paid := true }
      else db.deals.get ⟨i, h'⟩ := by
    simp [set_paid_deal, List.get_eq_getElem]
  refine ⟨?_, ?_, rfl, rfl, rfl, rfl⟩
  · rw [hget]
    by_cases hd : (db.deals.get ⟨i, h'⟩).deal_id = d
    · rw [if_pos hd]
      simp
    · rw [if_neg hd]
      simp
  · intro hne
    rw [hget, if_neg hne]

theorem set_paid_deal_frame_witness :
    (((set_paid_deal dbWithDeal 900).deals.get
        ⟨0, by decide⟩).user_id = (dbWithDeal.deals.get ⟨0, by decide⟩).user_id) ∧
    (set_paid_deal dbWithDeal 900).users = dbWithDeal.users :=
  ⟨((set_paid_deal_frame dbWithDeal 900 0 (by decide) (by decide)).1).2.1,
   (set_paid_deal_frame dbWithDeal 900 0 (by decide) (by decide)).2.2.1⟩

/-- C5: `select` and `update` are connect-on-first-use — on a handle whose
pool is not yet established they first establish it (with the arguments
`connect` builds) and then run the statement, and on a handle whose pool is
established they run the statement without touching the handle, so the same
pool stays in place and no second pool is opened. -/
theorem select_update_connect_on_first_use {α : Type} (db : Database)
    (fetch : DBState → α) (stmt : DBState → DBState) (s : DBState) :
    (db.pool = none →
      (db.select fetch s).1.pool = some db.createPoolArgs ∧
      (db.select fetch s).2 = fetch s ∧
      (db.update stmt s).1.pool = some db.createPoolArgs ∧
      (db.update stmt s).2 = stmt s) ∧
    (∀ p, db.pool = some p →
      (db.select fetch s).1 = db ∧ (db.select fetch s).2 = fetch s ∧
      (db.update stmt s).1 = db ∧ (db.update stmt s).2 = stmt s) := by
  constructor
  · intro h
    simp [Database.select, Database.update, Database.connect, h]
  · intro p h
    simp [Database.select, Database.update, h]

theorem select_update_connect_on_first_use_witness :
    ((dbHandle.select (fun s => s.users) emptyDB).1.pool =
      some dbHandle.createPoolArgs ∧
     (dbHandle.update (fun s => s) emptyDB).2 = emptyDB) ∧
    ((dbHandle.connect.select (fun s => s.users) emptyDB).1 = dbHandle.connect) :=
  ⟨⟨((select_update_connect_on_first_use dbHandle (fun s => s.users)
        (fun s => s) emptyDB).1 rfl).1,
    ((select_update_connect_on_first_use dbHandle (fun s => s.users)
        (fun s => s) emptyDB).1 rfl).2.2.2⟩,
   ((select_update_connect_on_first_use dbHandle.connect (fun s => s.users)
        (fun s => s) emptyDB).2 dbHandle.createPoolArgs rfl).1⟩

/-- C7 counterexample: on the concrete default handle (timeout 30) the
acquisition path of `select`/`update` passes no timeout at all — the
`timeout` argument of `pool.acquire()` is `None`, not the timeout configured
at construction — refuting the claim that connection acquisition is bounded
by the configured timeout. -/
theorem acquire_not_bounded_by_configured_timeout :
    (⟨"postgres://cfg", none, 10, 500, 500, 30⟩ : Database).acquireTimeoutArg ≠
      some (⟨"postgres://cfg", none, 10, 500, 500, 30⟩ : Database).timeout := by
  simp [Database.acquireTimeoutArg]

/-- C7 as amended: the timeout configured at construction is wired to pool
creation as `max_inactive_connection_lifetime`, while the `pool.acquire()`
calls of `select`/`update` pass no timeout argument (the asyncpg default
`timeout=None`), so an acquisition from an exhausted pool is not bounded by
the configured timeout. -/
theorem acquire_timeout_wiring (db : Database) :
    db.acquireTimeoutArg = none ∧
    db.createPoolArgs.max_inactive_connection_lifetime = db.timeout ∧
    db.connect.pool = some db.createPoolArgs :=
  ⟨rfl, rfl, rfl⟩

/-- Helper for C1: the conflict-update branch rewrites the filtered view of
the table to the bumped matching rows. -/
theorem filter_map_bump (u : Int) (b : String) (l : List ButtonsStatRow) :
    (l.map (fun r =>
        if r.user_id == u && r.button_name == b then
          { r with count := r.count + 1 }
        else r)).filter (fun r => r.user_id == u && r.button_name == b) =
    (l.filter (fun r => r.user_id == u && r.button_name == b)).map
      (fun r => { r with count := r.count + 1 }) := by
  rw [List.filter_map]
  have h1 : l.filter ((fun r => r.user_id == u && r.button_name == b) ∘
      (fun r => if r.user_id == u && r.button_name == b then
        { r with count := r.count + 1 } else r)) =
      l.filter (fun r => r.user_id == u && r.button_name == b) := by
    apply List.filter_congr
    intro r _
    by_cases h : (r.user_id == u && r.button_name == b) = true
    · simp only [Function.comp_apply, if_pos h]
    · simp only [Function.comp_apply, if_neg h]
  rw [h1]
  apply List.map_congr_left
  intro r hr
  rw [if_pos (List.mem_filter.mp hr).2]

/-- Helper for C1: applying `add_button_count` to a state whose table has
exactly one row for the pair leaves exactly that row with its count
incremented. -/
theorem add_button_count_existing (db : DBState) (u : Int) (b : String)
    (r : ButtonsStatRow)
    (h : db.buttons_stat.filter
      (fun r => r.user_id == u && r.button_name == b) = [r]) :
    (add_button_count db u b).buttons_stat.filter
      (fun r => r.user_id == u && r.button_name == b) =
    [{ r with count := r.count + 1 }] := by
  have hany : db.buttons_stat.any
      (fun r => r.user_id == u && r.button_name == b) = true := by
    have : r ∈ db.buttons_stat.filter
        (fun r => r.user_id == u && r.button_name == b) := by
      rw [h]; exact List.mem_singleton.mpr rfl
    rw [List.mem_filter] at this
    exact List.any_eq_true.mpr ⟨r, this.1, this.2⟩
  simp only [add_button_count, hany, if_pos]
  rw [filter_map_bump, h]
  rfl

/-- C1: `add_button_count` is one upsert — on a state with no row for the
pair it appends the row with count 1, on a state with exactly the row `r` for
the pair it increments the count of that row — and hence N increments starting
from no row end with a single row of count exactly N (no lost updates). -/
theorem add_button_count_upsert (db : DBState) (u : Int) (b : String) :
    (db.buttons_stat.filter (fun r => r.user_id == u && r.button_name == b) = [] →
      (add_button_count db u b).buttons_stat = db.buttons_stat ++
        [{ id := db.buttons_seq, user_id := u, button_name := b, count := 1 }]) ∧
    (∀ r, db.buttons_stat.filter
        (fun r => r.user_id == u && r.button_name == b) = [r] →
      (add_button_count db u b).buttons_stat.filter
          (fun r => r.user_id == u && r.button_name == b) =
        [{ r with count := r.count + 1 }]) ∧
    (∀ N : Nat, db.buttons_stat.filter
        (fun r => r.user_id == u && r.button_name == b) = [] →
      ∃ rid, ((fun s => add_button_count s u b)^[N + 1] db).buttons_stat.filter
          (fun r => r.user_id == u && r.button_name == b) =
        [{ id := rid, user_id := u, button_name := b, count := (N : Int) + 1 }]) := by
  have hnorow : ∀ s : DBState,
      s.buttons_stat.filter (fun r => r.user_id == u && r.button_name == b) = [] →
      (add_button_count s u b).buttons_stat = s.buttons_stat ++
        [{ id := s.buttons_seq, user_id := u, button_name := b, count := 1 }] := by
    intro s h
    have hany : s.buttons_stat.any
        (fun r => r.user_id == u && r.button_name == b) = false := by
      rw [List.any_eq_false]
      intro r hr hp
      have : r ∈ s.buttons_stat.filter
          (fun r => r.user_id == u && r.button_name == b) :=
        List.mem_filter.mpr ⟨hr, hp⟩
      rw [h] at this
      exact absurd this (List.not_mem_nil r)
    unfold add_button_count
    rw [hany]
    rfl
  refine ⟨hnorow db, fun r h => add_button_count_existing db u b r h, ?_⟩
  intro N
  induction N with
  | zero =>
    intro h
    refine ⟨db.buttons_seq, ?_⟩
    rw [Function.iterate_succ_apply', Function.iterate_zero_apply, hnorow db h,
      List.filter_append, h, List.nil_append]
    simp
  | succ n ih =>
    intro h
    obtain ⟨rid, hrid⟩ := ih h
    refine ⟨rid, ?_⟩
    rw [Function.iterate_succ_apply']
    rw [add_button_count_existing
      ((fun s => add_button_count s u b)^[n + 1] db) u b
      { id := rid, user_id := u, button_name := b, count := (n : Int) + 1 } hrid]
    norm_num

theorem add_button_count_upsert_witness :
    ((add_button_count emptyDB 5 "start").buttons_stat =
      [{ id := 1, user_id := 5, button_name := "start", count := 1 }]) ∧
    (∃ rid, ((fun s => add_button_count s 5 "start")^[3] emptyDB).buttons_stat.filter
        (fun r => r.user_id == 5 && r.button_name == "start") =
      [{ id := rid, user_id := 5, button_name := "start", count := ((2 : Nat) : Int) + 1 }]) :=
  ⟨(add_button_count_upsert emptyDB 5 "start").1 rfl,
   (add_button_count_upsert emptyDB 5 "start").2.2 2 rfl⟩

/-- Helper: the Python-style split never yields an empty list. -/
theorem splitChar_ne_nil (sep : Char) (cs : List Char) :
    splitChar sep cs ≠ [] := by
  cases cs with
  | nil => simp [splitChar]
  | cons c cs =>
    unfold splitChar
    by_cases h : (c == sep) = true
    · rw [if_pos h]
      simp
    · rw [if_neg h]
      cases hs : splitChar sep cs <;> simp

/-- Helper: `pySplit` never yields an empty list, so index 0 never fails. -/
theorem pySplit_ne_nil (s : String) (sep : Char) : pySplit s sep ≠ [] := by
  unfold pySplit
  intro h
  exact splitChar_ne_nil sep s.toList (List.map_eq_nil_iff.mp h)

/-- C6: `add_payment` parses the invoice payload `"<product_id>:<deal_id>"`
into the two integers it persists together with the currency, total amount
and the two charge identifiers; when the payload lacks the delimiter or a
part is non-numeric the call fails before the insert statement, leaving the
payments table (and every other table) unchanged — the error return carries
no state. -/
theorem add_payment_payload_parsing (db : DBState) (u : Int)
    (pd : SuccessfulPayment) :
    (∀ a b rest, pySplit pd.invoice_payload ':' = a :: b :: rest →
      ∀ pid did, pyInt a = some pid → pyInt b = some did →
      ∃ db', add_payment db u pd = Except.ok db' ∧
        db'.payments = db.payments ++
          [⟨db.payments_seq, u, pd.currency, pd.total_amount, pid, did,
            pd.telegram_payment_charge_id, pd.provider_payment_charge_id⟩] ∧
        db'.payments_seq = db.payments_seq + 1 ∧
        db'.users = db.users ∧ db'.deals = db.deals ∧
        db'.products = db.products ∧ db'.buttons_stat = db.buttons_stat) ∧
    (((pySplit pd.invoice_payload ':').length = 1 ∨
      pyInt ((pySplit pd.invoice_payload ':').headD "") = none ∨
      (∃ a b rest, pySplit pd.invoice_payload ':' = a :: b :: rest ∧
        pyInt b = none)) →
      ∃ e, add_payment db u pd = Except.error e) := by
  constructor
  · intro a b rest hsplit pid did hpa hpb
    unfold add_payment
    rw [hsplit]
    simp only [show pyIndex (a :: b :: rest) 0 = Except.ok a from rfl,
      show pyIndex (a :: b :: rest) 1 = Except.ok b from rfl, hpa, hpb]
    exact ⟨_, rfl, rfl, rfl, rfl, rfl, rfl, rfl⟩
  · intro hbad
    rcases hl : pySplit pd.invoice_payload ':' with _ | ⟨a, _ | ⟨b, rest⟩⟩
    · exact absurd hl (pySplit_ne_nil pd.invoice_payload ':')
    · unfold add_payment
      rw [hl]
      cases hpa : pyInt a with
      | none =>
        exact ⟨"ValueError: invalid literal for int with base 10",
          by simp only [show pyIndex [a] 0 = Except.ok a from rfl, hpa]⟩
      | some pid =>
        exact ⟨"IndexError: list index out of range",
          by simp only [show pyIndex [a] 0 = Except.ok a from rfl, hpa,
            show pyIndex [a] 1 =
              Except.error "IndexError: list index out of range" from rfl]⟩
    · rcases hbad with hlen | hhead | ⟨a', b', rest', heq, hpb⟩
      · rw [hl] at hlen
        simp at hlen
      · rw [hl] at hhead
        rw [List.headD_cons] at hhead
        unfold add_payment
        rw [hl]
        exact ⟨"ValueError: invalid literal for int with base 10",
          by simp only [show pyIndex (a :: b :: rest) 0 = Except.ok a from rfl,
            hhead]⟩
      · rw [hl] at heq
        injection heq with h1 h2
        injection h2 with h2 h3
        subst h1
        subst h2
        unfold add_payment
        rw [hl]
        cases hpa : pyInt a with
        | none =>
          exact ⟨"ValueError: invalid literal for int with base 10",
            by simp only [show pyIndex (a :: b :: rest) 0 = Except.ok a from rfl,
              hpa]⟩
        | some pid =>
          exact ⟨"ValueError: invalid literal for int with base 10",
            by simp only [show pyIndex (a :: b :: rest) 0 = Except.ok a from rfl,
              show pyIndex (a :: b :: rest) 1 = Except.ok b from rfl, hpa, hpb]⟩

theorem add_payment_payload_parsing_witness :
    (∃ db', add_payment emptyDB 42 pdOk = Except.ok db' ∧
      db'.payments = emptyDB.payments ++
        [⟨emptyDB.payments_seq, 42, pdOk.currency, pdOk.total_amount, 7, 900,
          pdOk.telegram_payment_charge_id, pdOk.provider_payment_charge_id⟩] ∧
      db'.payments_seq = emptyDB.payments_seq + 1 ∧
      db'.users = emptyDB.users ∧ db'.deals = emptyDB.deals ∧
      db'.products = emptyDB.products ∧
      db'.buttons_stat = emptyDB.buttons_stat) ∧
    (∃ e, add_payment emptyDB 42 pdNoDelim = Except.error e) :=
  ⟨(add_payment_payload_parsing emptyDB 42 pdOk).1 "7" "900" [] (by decide)
      7 900 (by decide) (by decide),
   (add_payment_payload_parsing emptyDB 42 pdNoDelim).2 (Or.inl (by decide))⟩

/-- Helper for C2: a successful `processProduct` copies `id`, `name`,
`CURRENCY_ID` and `detailText` from the dictionary, and stores the
`float`-converted `PRICE`. -/
theorem processProduct_ok_fields (p : ProductDict) (v : ProductInsertValues)
    (h : processProduct p = Except.ok v) :
    v.id = p.id ∧ v.name = p.name ∧ v.currency_id = p.CURRENCY_ID ∧
    v.description = p.detailText ∧
    ∃ prs, p.PRICE = some prs ∧ pyFloat prs = some v.price := by
  unfold processProduct at h
  cases haf : p.dateActiveFrom with
  | none =>
    simp only [haf] at h
    exact Except.noConfusion h
  | some afRaw =>
    simp only [haf] at h
    cases haf2 : pyStrptime (pySplitHead afRaw '+') with
    | none =>
      simp only [haf2] at h
      exact Except.noConfusion h
    | some active_from =>
      simp only [haf2] at h
      cases hat : p.dateActiveTo with
      | none =>
        simp only [hat] at h
        exact Except.noConfusion h
      | some atRaw =>
        simp only [hat] at h
        cases hat2 : pyStrptime (pySplitHead atRaw '+') with
        | none =>
          simp only [hat2] at h
          exact Except.noConfusion h
        | some active_to =>
          simp only [hat2] at h
          cases hpr : p.PRICE with
          | none =>
            simp only [hpr] at h
            exact Except.noConfusion h
          | some prRaw =>
            simp only [hpr] at h
            cases hpf : pyFloat prRaw with
            | none =>
              simp only [hpf] at h
              exact Except.noConfusion h
            | some price =>
              simp only [hpf] at h
              injection h with h
              subst h
              exact ⟨rfl, rfl, rfl, rfl, prRaw, rfl, hpf⟩

/-- Helper for C2: inversion of a successful `insertProduct`. -/
theorem insertProduct_ok (db : DBState) (v : ProductInsertValues)
    (db1 : DBState) (h : insertProduct db v = Except.ok db1) :
    ∃ i, v.id = some i ∧
      db.products.any (fun r => r.id == i) = false ∧
      db1.products = db.products ++
        [⟨i, v.name, v.active_from, v.active_to, v.price, v.currency_id,
          v.description⟩] ∧
      db1.users = db.users ∧ db1.deals = db.deals ∧
      db1.buttons_stat = db.buttons_stat ∧ db1.payments = db.payments := by
  unfold insertProduct at h
  cases hv : v.id with
  | none =>
    simp only [hv] at h
    exact Except.noConfusion h
  | some i =>
    simp only [hv] at h
    by_cases hany : db.products.any (fun r => r.id == i) = true
    · rw [if_pos hany] at h
      exact Except.noConfusion h
    · rw [if_neg hany] at h
      injection h with h
      subst h
      exact ⟨i, rfl, by simpa using hany, rfl, rfl, rfl, rfl, rfl⟩

/-- Helper for C2: inversion of one successful step of the insert loop. -/
theorem updateLoop_cons_ok (db db' : DBState) (p : ProductDict)
    (ps : List ProductDict) (h : updateLoop db (p :: ps) = (db', none)) :
    ∃ v db1, processProduct p = Except.ok v ∧
      insertProduct db v = Except.ok db1 ∧ updateLoop db1 ps = (db', none) := by
  unfold updateLoop at h
  cases hpp : processProduct p with
  | error e =>
    simp only [hpp, Prod.mk.injEq] at h
    exact absurd h.2 (by simp)
  | ok v =>
    simp only [hpp] at h
    cases hins : insertProduct db v with
    | error e =>
      simp only [hins, Prod.mk.injEq] at h
      exact absurd h.2 (by simp)
    | ok db1 =>
      simp only [hins] at h
      exact ⟨v, db1, rfl, hins, h⟩

/-- Helper for C2: a successful run of the insert loop never disturbs the
rows of an id already present when it starts. -/
theorem updateLoop_preserve_id (i : Int) (l : List ProductDict) :
    ∀ db db' : DBState, updateLoop db l = (db', none) →
      db.products.any (fun r => r.id == i) = true →
      db'.products.filter (fun r => r.id == i) =
        db.products.filter (fun r => r.id == i) := by
  induction l with
  | nil =>
    intro db db' h _
    unfold updateLoop at h
    simp only [Prod.mk.injEq] at h
    rw [← h.1]
  | cons q ps ih =>
    intro db db' h hany
    obtain ⟨vq, db1, hppq, hinsq, hrest⟩ := updateLoop_cons_ok db db' q ps h
    obtain ⟨j, hvidq, hjany, hprod, -⟩ := insertProduct_ok db vq db1 hinsq
    have hji : (j == i) = false := by
      cases hjj : (j == i)
      · rfl
      · have hj : j = i := by simpa using hjj
        rw [hj] at hjany
        rw [hany] at hjany
        exact absurd hjany (by simp)
    have hany1 : db1.products.any (fun r => r.id == i) = true := by
      rw [hprod, List.any_append, hany]
      rfl
    rw [ih db1 db' hrest hany1, hprod, List.filter_append]
    rw [show List.filter (fun r => r.id == i)
        [(⟨j, vq.name, vq.active_from, vq.active_to, vq.price, vq.currency_id,
          vq.description⟩ : ProductsRow)] = [] by simp [hji]]
    rw [List.append_nil]

/-- Helper for C2: if a product of the remaining list later inserts id `i`
successfully, then no row with id `i` is present when the loop starts. -/
theorem updateLoop_insert_requires_absent (i : Int) (l : List ProductDict) :
    ∀ db db' : DBState, updateLoop db l = (db', none) →
      ∀ p ∈ l, ∀ v, processProduct p = Except.ok v → v.id = some i →
      db.products.any (fun r => r.id == i) = false := by
  induction l with
  | nil =>
    intro db db' _ p hp
    exact absurd hp (List.not_mem_nil p)
  | cons q ps ih =>
    intro db db' h p hp v hpv hvid
    obtain ⟨vq, db1, hppq, hinsq, hrest⟩ := updateLoop_cons_ok db db' q ps h
    rcases List.mem_cons.mp hp with rfl | hp'
    · rw [hpv] at hppq
      injection hppq with hv
      subst hv
      obtain ⟨j, hvid', hjany, -⟩ := insertProduct_ok db v db1 hinsq
      rw [hvid] at hvid'
      injection hvid' with hj
      subst hj
      exact hjany
    · have h1 := ih db1 db' hrest p hp' v hpv hvid
      obtain ⟨j, hvidq, hjany, hprod, -⟩ := insertProduct_ok db vq db1 hinsq
      rw [hprod, List.any_append] at h1
      exact (Bool.or_eq_false_iff.mp h1).1

/-- Helper for C2: after a successful run of the insert loop over a list
containing `p`, the rows with `p`'s id are exactly the old ones plus the one
row built from the processed values of `p`. -/
theorem updateLoop_found (i : Int) (l : List ProductDict) :
    ∀ db db' : DBState, updateLoop db l = (db', none) →
      ∀ p ∈ l, ∀ v, processProduct p = Except.ok v → v.id = some i →
      db'.products.filter (fun r => r.id == i) =
        db.products.filter (fun r => r.id == i) ++
          [⟨i, v.name, v.active_from, v.active_to, v.price, v.currency_id,
            v.description⟩] := by
  induction l with
  | nil =>
    intro db db' _ p hp
    exact absurd hp (List.not_mem_nil p)
  | cons q ps ih =>
    intro db db' h p hp v hpv hvid
    obtain ⟨vq, db1, hppq, hinsq, hrest⟩ := updateLoop_cons_ok db db' q ps h
    rcases List.mem_cons.mp hp with rfl | hp'
    · rw [hpv] at hppq
      injection hppq with hv
      subst hv
      obtain ⟨j, hvid', hjany, hprod, -⟩ := insertProduct_ok db v db1 hinsq
      rw [hvid] at hvid'
      injection hvid' with hj
      subst hj
      have hany1 : db1.products.any (fun r => r.id == i) = true := by
        rw [hprod, List.any_append]
        simp
      rw [updateLoop_preserve_id i ps db1 db' hrest hany1, hprod,
        List.filter_append]
      have hempty : db.products.filter (fun r => r.id == i) = [] := by
        rw [List.filter_eq_nil_iff]
        intro r hr hri
        have : db.products.any (fun r => r.id == i) = true :=
          List.any_eq_true.mpr ⟨r, hr, hri⟩
        rw [this] at hjany
        exact absurd hjany (by simp)
      rw [hempty]
      simp
    · have h1 := ih db1 db' hrest p hp' v hpv hvid
      obtain ⟨j, hvidq, hjany, hprod, -⟩ := insertProduct_ok db vq db1 hinsq
      have habs := updateLoop_insert_requires_absent i ps db1 db' hrest p hp' v
        hpv hvid
      rw [hprod, List.any_append] at habs
      have hji : ((⟨j, vq.name, vq.active_from, vq.active_to, vq.price,
          vq.currency_id, vq.description⟩ : ProductsRow).id == i) = false := by
        have := (Bool.or_eq_false_iff.mp habs).2
        simpa using this
      rw [h1, hprod, List.filter_append]
      rw [show List.filter (fun r => r.id == i)
          [(⟨j, vq.name, vq.active_from, vq.active_to, vq.price, vq.currency_id,
            vq.description⟩ : ProductsRow)] = [] by simp [hji]]
      rw [List.append_nil]

/-- Helper for C2: a successful run processes every listed product. -/
theorem updateLoop_mem_ok (l : List ProductDict) :
    ∀ db db' : DBState, updateLoop db l = (db', none) →
      ∀ p ∈ l, ∃ v, processProduct p = Except.ok v := by
  induction l with
  | nil =>
    intro db db' _ p hp
    exact absurd hp (List.not_mem_nil p)
  | cons q ps ih =>
    intro db db' h p hp
    obtain ⟨vq, db1, hppq, hinsq, hrest⟩ := updateLoop_cons_ok db db' q ps h
    rcases List.mem_cons.mp hp with rfl | hp'
    · exact ⟨vq, hppq⟩
    · exact ih db1 db' hrest p hp'

/-- Helper for C2: a successful run over a list none of whose dictionaries
carries id `i` leaves the rows with id `i` unchanged. -/
theorem updateLoop_disjoint (i : Int) (l : List ProductDict) :
    ∀ db db' : DBState, updateLoop db l = (db', none) →
      (∀ q ∈ l, q.id ≠ some i) →
      db'.products.filter (fun r => r.id == i) =
        db.products.filter (fun r => r.id == i) := by
  induction l with
  | nil =>
    intro db db' h _
    unfold updateLoop at h
    simp only [Prod.mk.injEq] at h
    rw [← h.1]
  | cons q ps ih =>
    intro db db' h hdis
    obtain ⟨vq, db1, hppq, hinsq, hrest⟩ := updateLoop_cons_ok db db' q ps h
    obtain ⟨j, hvidq, hjany, hprod, -⟩ := insertProduct_ok db vq db1 hinsq
    have hq : vq.id = q.id := (processProduct_ok_fields q vq hppq).1
    have hji : (j == i) = false := by
      have hqi : q.id ≠ some i := hdis q (List.mem_cons_self q ps)
      rw [← hq, hvidq] at hqi
      have : j ≠ i := fun hj => hqi (by rw [hj])
      simpa using this
    rw [ih db1 db' hrest (fun q' hq' => hdis q' (List.mem_cons_of_mem q hq')),
      hprod, List.filter_append]
    rw [show List.filter (fun r => r.id == i)
        [(⟨j, vq.name, vq.active_from, vq.active_to, vq.price, vq.currency_id,
          vq.description⟩ : ProductsRow)] = [] by simp [hji]]
    rw [List.append_nil]

/-- C2: after a successful `update_table_products` with a snapshot containing
`p` with id `i`, `get_product_by_id i` returns exactly one row carrying the
same id, name, currency and `float`-converted price as the dictionary; and
after a further successful refresh whose id set avoids `i`, the old id is
gone — the table is a full replacement, never a partial patch. -/
theorem update_table_products_roundtrip (db db' db'' : DBState)
    (l1 l2 : List ProductDict) (p : ProductDict) (i : Int)
    (h1 : update_table_products db l1 = (db', none))
    (hp : p ∈ l1) (hid : p.id = some i)
    (h2 : update_table_products db' l2 = (db'', none))
    (hdisj : ∀ q ∈ l2, q.id ≠ some i) :
    (∃ v, processProduct p = Except.ok v ∧ v.id = some i ∧
      v.name = p.name ∧ v.currency_id = p.CURRENCY_ID ∧
      (∃ prs, p.PRICE = some prs ∧ pyFloat prs = some v.price) ∧
      get_product_by_id db' i =
        [⟨i, v.name, v.active_from, v.active_to, v.price, v.currency_id,
          v.description⟩]) ∧
    get_product_by_id db'' i = [] := by
  unfold update_table_products at h1 h2
  constructor
  · obtain ⟨v, hv⟩ := updateLoop_mem_ok l1 _ db' h1 p hp
    obtain ⟨hvid, hvname, hvcur, hvdesc, hvprice⟩ :=
      processProduct_ok_fields p v hv
    rw [hid] at hvid
    refine ⟨v, hv, hvid, hvname, hvcur, hvprice, ?_⟩
    have := updateLoop_found i l1 _ db' h1 p hp v hv hvid
    unfold get_product_by_id
    rw [this]
    simp
  · have := updateLoop_disjoint i l2 _ db'' h2 hdisj
    unfold get_product_by_id
    rw [this]
    simp

theorem update_table_products_roundtrip_witness :
    (∃ v, processProduct prodA = Except.ok v ∧ v.id = some 7 ∧
      v.name = prodA.name ∧ v.currency_id = prodA.CURRENCY_ID ∧
      (∃ prs, prodA.PRICE = some prs ∧ pyFloat prs = some v.price) ∧
      get_product_by_id (update_table_products emptyDB [prodA]).1 7 =
        [⟨7, v.name, v.active_from, v.active_to, v.price, v.currency_id,
          v.description⟩]) ∧
    get_product_by_id (update_table_products
      (update_table_products emptyDB [prodA]).1 [prodB]).1 7 = [] :=
  update_table_products_roundtrip emptyDB
    (update_table_products emptyDB [prodA]).1
    (update_table_products (update_table_products emptyDB [prodA]).1 [prodB]).1
    [prodA] [prodB] prodA 7 (by decide) (by decide) (by decide)
    (by decide) (by decide)

end OlgaBot
